import Mathlib

set_option maxRecDepth 8192

/-!
Shallow embedding of the ssh_monitor fleet-polling program (src/main.py).

Python strings are Lean `String`s, Python floats are idealised as `ℚ`,
Python exceptions are `Option`/`Except` failures, and the per-host session
(a `paramiko` client plus its liveness flag) is an explicit `SessionState`
threaded through the functions that mutate it.  Instrumentation counters
(`connectAttempts`, `cmdRuns`) record how often a connection attempt is made
and how often a remote command is actually dispatched, so that claims about
reconnect behaviour are stated as equalities on those counters.
-/

/-- Python `str.strip()` with no argument (used on every decoded channel,
src/main.py lines 89-90 and 125): drop leading and trailing whitespace. -/
def pyStrip (s : String) : String :=
  String.mk (((s.data.dropWhile Char.isWhitespace).reverse.dropWhile Char.isWhitespace).reverse)

/-- Accumulator-based splitter behind `pySplitWs`. -/
def splitWsAux : List Char → List Char → List String
  | [], acc => if acc.isEmpty then [] else [String.mk acc.reverse]
  | c :: cs, acc =>
    if c.isWhitespace then
      if acc.isEmpty then splitWsAux cs [] else String.mk acc.reverse :: splitWsAux cs []
    else splitWsAux cs (c :: acc)

/-- Python `str.split()` with no separator (lines 109 and 125): split on runs
of whitespace, producing no empty tokens. -/
def pySplitWs (s : String) : List String := splitWsAux s.data []

/-- Accumulator-based splitter behind `pySplitLines`. -/
def splitLinesAux : List Char → List Char → List String
  | [], acc => if acc.isEmpty then [] else [String.mk acc.reverse]
  | '\n' :: cs, acc => String.mk acc.reverse :: splitLinesAux cs []
  | c :: cs, acc => splitLinesAux cs (c :: acc)

/-- Python `str.splitlines()` (line 124) for newline-separated probe output:
no trailing empty line is produced. -/
def pySplitLines (s : String) : List String := splitLinesAux s.data []

/-- Python `str.strip('%')` (line 131): drop `%` characters from both ends. -/
def pyStripPercent (s : String) : String :=
  String.mk (((s.data.dropWhile (fun c => c == '%')).reverse.dropWhile (fun c => c == '%')).reverse)

/-- Python format spec `:<n` / `str.ljust`: left-justify in a field of `n`. -/
def pyLJust (s : String) (n : Nat) : String :=
  s ++ String.mk (List.replicate (n - s.length) ' ')

/-- Python format spec `:>n` / `str.rjust`: right-justify in a field of `n`. -/
def pyRJust (s : String) (n : Nat) : String :=
  String.mk (List.replicate (n - s.length) ' ') ++ s

/-- Value of a digit string. -/
def digitsVal (cs : List Char) : Nat := cs.foldl (fun a c => a * 10 + (c.toNat - 48)) 0

/-- Python `int()` (line 109) on the plain decimal tokens produced by the
memory probe: an optional sign followed by one or more digits. -/
def pyInt (s : String) : Option Int :=
  match s.data with
  | '-' :: cs => if !cs.isEmpty && cs.all Char.isDigit then some (-(digitsVal cs : Int)) else none
  | '+' :: cs => if !cs.isEmpty && cs.all Char.isDigit then some ((digitsVal cs : Int)) else none
  | cs => if !cs.isEmpty && cs.all Char.isDigit then some ((digitsVal cs : Int)) else none

/-- Unsigned part of `pyFloat`. -/
def pyFloatCore (cs : List Char) : Option ℚ :=
  match cs.dropWhile Char.isDigit with
  | [] => if (cs.takeWhile Char.isDigit).isEmpty then none
          else some ((digitsVal (cs.takeWhile Char.isDigit) : ℚ))
  | '.' :: fr =>
    if fr.all Char.isDigit && !((cs.takeWhile Char.isDigit).isEmpty && fr.isEmpty) then
      some ((digitsVal (cs.takeWhile Char.isDigit) : ℚ) + (digitsVal fr : ℚ) / ((10 : ℚ) ^ fr.length))
    else none
  | _ => none

/-- Python `float()` (lines 103 and 131) on plain decimal tokens: an optional
sign, digits, and at most one decimal point, idealised over `ℚ`. -/
def pyFloat (s : String) : Option ℚ :=
  match s.data with
  | '-' :: cs => (pyFloatCore cs).map (fun q => -q)
  | '+' :: cs => pyFloatCore cs
  | cs => pyFloatCore cs

/-- Python `dict` assignment `d[k] = v`: an existing key keeps its insertion
position and gets the new value, a new key is appended at the end. -/
def dictInsert {α β : Type} [DecidableEq α] : List (α × β) → α → β → List (α × β)
  | [], k, v => [(k, v)]
  | (k', v') :: d, k, v => if k' = k then (k', v) :: d else (k', v') :: dictInsert d k v

/-- Python `dict` lookup `d.get(k)` on an insertion-ordered association list. -/
def dictGet {α β : Type} [DecidableEq α] : List (α × β) → α → Option β
  | [], _ => none
  | (k', v') :: d, k => if k' = k then some v' else dictGet d k

/-- `SSHMonitor.get_cpu_usage` parsing step (line 103): `float()` applied to
the stripped output of the CPU probe; a failure is a raised `ValueError`. -/
def getCpuUsage (out : String) : Option ℚ := pyFloat out

/-- The memory dictionary built by `SSHMonitor.get_memory_usage` (lines 111-116). -/
structure MemInfo where
  total_mb : ℚ
  used_mb : ℚ
  free_mb : ℚ
  usage_percent : ℚ
  deriving DecidableEq

/-- `SSHMonitor.get_memory_usage` parsing (lines 106-117): the stripped probe
output is split on whitespace into exactly three integers `total used free`
(kilobytes); `total = 0` raises `ZeroDivisionError`, i.e. produces no value. -/
def getMemoryUsage (out : String) : Option MemInfo :=
  match (pySplitWs out).mapM pyInt with
  | some [total, used, free] =>
    if total = 0 then none
    else some ⟨(total : ℚ) / 1024, (used : ℚ) / 1024, (free : ℚ) / 1024,
               ((used : ℚ) / (total : ℚ)) * 100⟩
  | _ => none

/-- One value of the disk dictionary (lines 134-140). -/
structure DiskEntry where
  filesystem : String
  total : String
  used : String
  available : String
  usage_percent : ℚ
  deriving DecidableEq

/-- The record built from one `df` line's token list (lines 127-140). -/
def diskEntryOf (ts : List String) (pct : ℚ) : DiskEntry :=
  ⟨ts.getD 0 "", ts.getD 1 "", ts.getD 2 "", ts.getD 3 "", pct⟩

/-- `line.strip().split()` (line 125). -/
def lineTokens (line : String) : List String := pySplitWs (pyStrip line)

/-- The body of the `for` loop of `SSHMonitor.get_disk_usage` (lines 124-140)
for one line: lines with fewer than six tokens are skipped, otherwise the
percentage token is `%`-stripped and parsed (a parse failure raises, aborting
the whole probe) and the entry is keyed by the sixth token. -/
def processDiskLine (d : List (String × DiskEntry)) (line : String) :
    Option (List (String × DiskEntry)) :=
  if 6 ≤ (lineTokens line).length then
    match pyFloat (pyStripPercent ((lineTokens line).getD 4 "")) with
    | some pct => some (dictInsert d ((lineTokens line).getD 5 "") (diskEntryOf (lineTokens line) pct))
    | none => none
  else some d

/-- `SSHMonitor.get_disk_usage` (lines 119-141): fold the per-line step over
the probe output's lines, starting from the empty dictionary. -/
def getDiskUsage (out : String) : Option (List (String × DiskEntry)) :=
  (pySplitLines out).foldlM processDiskLine []

/-- Root-disk selection of `SSHMonitor.format_status_line` line 154:
`disk_usage.get('/', disk_usage.get(list(disk_usage.keys())[0]))`.  The
default argument is evaluated eagerly, so an empty dictionary raises
`IndexError` even before the `'/'` lookup. -/
def rootDiskSelect : List (String × DiskEntry) → Except String DiskEntry
  | [] => Except.error "list index out of range"
  | (k₀, v₀) :: d =>
    match dictGet ((k₀, v₀) :: d) "/" with
    | some v => Except.ok v
    | none =>
      match dictGet ((k₀, v₀) :: d) k₀ with
      | some v => Except.ok v
      | none => Except.ok v₀

/-- The three fixed probes of the collector; the concrete shell command text
is irrelevant to the properties proved here. -/
inductive Probe
  | cpu
  | mem
  | disk
  deriving DecidableEq

/-- The remote-shell transport as a black box: whether opening a connection
succeeds, and for each probe either `none` (transport failure during
execution) or the raw `(stdout, stderr)` pair. -/
structure Transport where
  connectOk : Bool
  exec : Probe → Option (String × String)

/-- Mutable per-host session state: liveness of the connection (collapsing
`self.client is None`, missing transport, and inactive transport into one
flag) plus instrumentation counters for connection attempts and dispatched
commands. -/
structure SessionState where
  active : Bool
  connectAttempts : Nat
  cmdRuns : Nat
  deriving DecidableEq

/-- `SSHMonitor.connect` (lines 49-69): a live session returns at once with
no attempt; otherwise one attempt is made, which either activates the session
or raises while leaving it inactive. -/
def connectSession (tr : Transport) (st : SessionState) : Except String Unit × SessionState :=
  if st.active then (Except.ok (), st)
  else if tr.connectOk then
    (Except.ok (), { st with active := true, connectAttempts := st.connectAttempts + 1 })
  else
    (Except.error "connect failed", { st with connectAttempts := st.connectAttempts + 1 })

/-- Log line of src/main.py line 85. -/
def reconnectWarn : String := "Connection lost, attempting to reconnect"

/-- Log line of src/main.py line 93. -/
def stderrWarn (e : String) : String := "Command produced error: " ++ e

/-- Log line of src/main.py line 97. -/
def execErrLog (e : String) : String := "Error executing command: " ++ e

/-- Log line of src/main.py line 165. -/
def fmtErrLog (name e : String) : String :=
  "Error formatting status line for " ++ name ++ ": " ++ e

/-- Message of the `ValueError` raised by `float()` on a bad token. -/
def floatParseErr (s : String) : String := "could not convert string to float: " ++ s

/-- Message of the error raised while unpacking/parsing the memory probe. -/
def memParseErr (s : String) : String := "invalid memory output: " ++ s

/-- Message of the error raised while parsing the disk probe. -/
def diskParseErr (s : String) : String := "invalid disk output: " ++ s

/-- Result of one `execute_command` call: the returned text or the raised
exception, the session state afterwards, and the log records emitted. -/
structure ExecResult where
  result : Except String String
  state : SessionState
  log : List String

/-- Lines 88-95 of `SSHMonitor.execute_command`: dispatch the command on a
live connection, strip both channels, log (not return) a non-empty stderr,
and return the stripped stdout.  A transport failure raises after logging. -/
def execOnLive (tr : Transport) (st : SessionState) (cmd : Probe) (log0 : List String) :
    ExecResult :=
  match tr.exec cmd with
  | none =>
    ⟨Except.error "exec failed", { st with cmdRuns := st.cmdRuns + 1 },
      log0 ++ [execErrLog "exec failed"]⟩
  | some (o, e) =>
    ⟨Except.ok (pyStrip o), { st with cmdRuns := st.cmdRuns + 1 },
      log0 ++ (if pyStrip e = "" then [] else [stderrWarn (pyStrip e)])⟩

/-- `SSHMonitor.execute_command` (lines 80-98).  The body runs under
`self._lock`, which serialises concurrent callers on one session; the
sequential state-passing model realises exactly the serialised executions.
An inactive session triggers one `connect` before the command is dispatched;
a failed connect raises (after the warning and error log records). -/
def executeCommand (tr : Transport) (st : SessionState) (cmd : Probe) : ExecResult :=
  if st.active then execOnLive tr st cmd []
  else
    match connectSession tr st with
    | (Except.ok _, st') => execOnLive tr st' cmd [reconnectWarn]
    | (Except.error e, st') => ⟨Except.error e, st', [reconnectWarn, execErrLog e]⟩

/-- The all-unknown row of lines 147 and 166:
`f"{name:<12} {'?':>4}    {'?':>5}/{'?':>5}GB    {'?'}/{'?'}"`. -/
def unknownLine (name : String) : String :=
  pyLJust name 12 ++ " " ++ pyRJust "?" 4 ++ "    " ++ pyRJust "?" 5 ++ "/" ++
    pyRJust "?" 5 ++ "GB    ?/?"

/-- Idealised rendering of the Python fixed-point format `:.1f` (round to one
decimal); none of the verified claims depends on its digits. -/
def fmtTenths (q : ℚ) : String :=
  (if Int.floor (q * 10 + 1 / 2) < 0 then "-" else "") ++
    toString ((Int.floor (q * 10 + 1 / 2)).natAbs / 10) ++ "." ++
    toString ((Int.floor (q * 10 + 1 / 2)).natAbs % 10)

/-- The happy-path row of lines 160-163. -/
def statusLine (name : String) (cpu usedGb totalGb : ℚ) (rd : DiskEntry) : String :=
  pyLJust name 12 ++ " " ++ pyRJust (fmtTenths cpu) 4 ++ "%  " ++
    pyRJust (fmtTenths usedGb) 5 ++ "/" ++ fmtTenths totalGb ++ "GB  " ++
    rd.used ++ "/" ++ rd.total

/-- `SSHMonitor.format_status_line` (lines 143-166): on an inactive session
return the unknown row at once (no probe, no reconnect); otherwise run the
three probes in sequence, select the root disk, and render the row.  Every
exception of the body is caught by the `except` clause, which logs the
failure's message and returns the unknown row; the function therefore has a
total (exception-free) type. -/
def formatStatusLine (tr : Transport) (st : SessionState) (name : String) :
    String × SessionState × List String :=
  if st.active then
    match executeCommand tr st Probe.cpu with
    | ⟨Except.error e, st1, log1⟩ => (unknownLine name, st1, log1 ++ [fmtErrLog name e])
    | ⟨Except.ok out1, st1, log1⟩ =>
      match getCpuUsage out1 with
      | none => (unknownLine name, st1, log1 ++ [fmtErrLog name (floatParseErr out1)])
      | some cpu =>
        match executeCommand tr st1 Probe.mem with
        | ⟨Except.error e, st2, log2⟩ =>
          (unknownLine name, st2, (log1 ++ log2) ++ [fmtErrLog name e])
        | ⟨Except.ok out2, st2, log2⟩ =>
          match getMemoryUsage out2 with
          | none => (unknownLine name, st2, (log1 ++ log2) ++ [fmtErrLog name (memParseErr out2)])
          | some mem =>
            match executeCommand tr st2 Probe.disk with
            | ⟨Except.error e, st3, log3⟩ =>
              (unknownLine name, st3, ((log1 ++ log2) ++ log3) ++ [fmtErrLog name e])
            | ⟨Except.ok out3, st3, log3⟩ =>
              match getDiskUsage out3 with
              | none =>
                (unknownLine name, st3,
                  ((log1 ++ log2) ++ log3) ++ [fmtErrLog name (diskParseErr out3)])
              | some disk =>
                match rootDiskSelect disk with
                | Except.error e =>
                  (unknownLine name, st3, ((log1 ++ log2) ++ log3) ++ [fmtErrLog name e])
                | Except.ok rd =>
                  (statusLine name cpu (mem.used_mb / 1024) (mem.total_mb / 1024) rd,
                    st3, (log1 ++ log2) ++ log3)
  else (unknownLine name, st, [])

/-- The result-assembly of one cycle of `MultiServerMonitor.monitor_all`
(lines 287-303): futures complete in an arbitrary order `order`, each
completion stores the host's status in the monitor-keyed dictionary, and the
rows are then read back in the configured order, keeping only hosts present
in the dictionary. -/
def monitorAllCycle {M : Type} [DecidableEq M] (monitors : List M) (getStatus : M → String)
    (order : List M) : List String :=
  monitors.filterMap
    (fun m => dictGet (order.foldl (fun d x => dictInsert d x (getStatus x)) []) m)

/-- Exceptions relevant to the shutdown control flow of src/main.py. -/
inductive PyExc
  | keyboardInterrupt
  | otherError
  deriving DecidableEq

/-- Observable shutdown events. -/
inductive Ev
  | connectAllDone
  | disconnectAll
  deriving DecidableEq, BEq

/-- Sequencing of two program fragments, each given as the events it emits
plus the exception (if any) escaping it: an escaping exception skips the
second fragment. -/
def seqProg (p q : List Ev × Option PyExc) : List Ev × Option PyExc :=
  match p with
  | (evs, some e) => (evs, some e)
  | (evs, none) => (evs ++ q.1, q.2)

/-- `try body finally fin` where the finaliser itself raises nothing
(`disconnect_all` catches every per-session error, lines 238-245). -/
def tryFinallyProg (body fin : List Ev × Option PyExc) : List Ev × Option PyExc :=
  (body.1 ++ fin.1, body.2)

/-- `try body except KeyboardInterrupt: handler`. -/
def tryCatchKIProg (body handler : List Ev × Option PyExc) : List Ev × Option PyExc :=
  match body.2 with
  | some PyExc.keyboardInterrupt => (body.1 ++ handler.1, handler.2)
  | _ => body

/-- How a run of the program terminates: a user interrupt during the startup
`connect_all`, a user interrupt inside the monitoring loop, or an unexpected
exception inside the monitoring loop (the loop otherwise never returns). -/
inductive TermCause
  | interruptInConnectAll
  | interruptInMonitorLoop
  | errorInMonitorLoop
  deriving DecidableEq

/-- `MultiServerMonitor.connect_all` as seen by the shutdown control flow. -/
def connectAllProg (c : TermCause) : List Ev × Option PyExc :=
  if c = TermCause.interruptInConnectAll then ([], some PyExc.keyboardInterrupt)
  else ([Ev.connectAllDone], none)

/-- The `while self.running` loop body of `monitor_all` (lines 280-305) as
seen by the shutdown control flow: `self.running` is never cleared, so the
loop ends only by an exception. -/
def monitorLoopProg (c : TermCause) : List Ev × Option PyExc :=
  match c with
  | TermCause.interruptInMonitorLoop => ([], some PyExc.keyboardInterrupt)
  | TermCause.errorInMonitorLoop => ([], some PyExc.otherError)
  | TermCause.interruptInConnectAll => ([], none)

/-- `MultiServerMonitor.monitor_all` (lines 277-311): the loop under
`try ... except KeyboardInterrupt ... finally: self.disconnect_all()`. -/
def monitorAllProg (c : TermCause) : List Ev × Option PyExc :=
  tryFinallyProg (tryCatchKIProg (monitorLoopProg c) ([], none)) ([Ev.disconnectAll], none)

/-- `main` (lines 313-323): `connect_all` then `monitor_all` under
`try ... except KeyboardInterrupt ... finally: multi_monitor.disconnect_all()`. -/
def mainProg (c : TermCause) : List Ev × Option PyExc :=
  tryFinallyProg (tryCatchKIProg (seqProg (connectAllProg c) (monitorAllProg c)) ([], none))
    ([Ev.disconnectAll], none)

/-- Number of `disconnect_all` sweeps a terminating run performs; each sweep
calls `monitor.disconnect()` once on every session (lines 238-245). -/
def sessionCloseCalls (c : TermCause) : Nat := (mainProg c).1.count Ev.disconnectAll

/-- `ThreadPoolExecutor(max_workers=10)` of `MultiServerMonitor.__init__`
(line 172): the pool width is the constant 10, whatever the host count. -/
def executorMaxWorkers (_numServers : Nat) : Nat := 10

/-- Counting abstraction of the worker pool: tasks still queued, tasks
currently running on a worker, running tasks currently inside a remote
command invocation, and finished tasks. -/
structure PoolState where
  queued : Nat
  running : Nat
  inCmd : Nat
  done : Nat
  deriving DecidableEq

/-- Modelled from the spec: the bounded worker pool contract of the external
`ThreadPoolExecutor` (the executor's own code is not part of this
repository).  A queued task may start only while fewer than `W` tasks are
running; a running task may enter and leave a remote command invocation and
may finish once it is not inside one. -/
inductive PoolStep (W : Nat) : PoolState → PoolState → Prop
  | start (s : PoolState) : s.running < W → 0 < s.queued →
      PoolStep W s ⟨s.queued - 1, s.running + 1, s.inCmd, s.done⟩
  | beginCmd (s : PoolState) : s.inCmd < s.running →
      PoolStep W s ⟨s.queued, s.running, s.inCmd + 1, s.done⟩
  | endCmd (s : PoolState) : 0 < s.inCmd →
      PoolStep W s ⟨s.queued, s.running, s.inCmd - 1, s.done⟩
  | finish (s : PoolState) : s.inCmd < s.running →
      PoolStep W s ⟨s.queued, s.running - 1, s.inCmd, s.done + 1⟩

/-- Reflexive-transitive closure of `PoolStep`. -/
inductive PoolReach (W : Nat) : PoolState → PoolState → Prop
  | refl (s : PoolState) : PoolReach W s s
  | tail {a b c : PoolState} : PoolReach W a b → PoolStep W b c → PoolReach W a c

/-- One cycle submits one task per host: `k` queued tasks, nothing running. -/
def poolInit (k : Nat) : PoolState := ⟨k, 0, 0, 0⟩

/-! ### Helper lemmas -/

lemma dictGet_insert {α β : Type} [DecidableEq α] (d : List (α × β)) (k k' : α) (v : β) :
    dictGet (dictInsert d k v) k' = if k = k' then some v else dictGet d k' := by
  induction d with
  | nil => simp [dictInsert, dictGet]
  | cons hd tl ih =>
    obtain ⟨a, b⟩ := hd
    by_cases hak : a = k
    · subst hak
      by_cases hk' : a = k'
      · subst hk'; simp [dictInsert, dictGet]
      · simp [dictInsert, dictGet, hk']
    · by_cases hk' : a = k'
      · subst hk'
        have hka : ¬k = a := fun h => hak h.symm
        simp [dictInsert, dictGet, hak, hka]
      · simp [dictInsert, dictGet, hak, hk', ih]

lemma dictGet_fold {α : Type} [DecidableEq α] (f : α → String) (m : α) :
    ∀ (order : List α) (d : List (α × String)),
      (m ∈ order ∨ dictGet d m = some (f m)) →
      dictGet (order.foldl (fun acc x => dictInsert acc x (f x)) d) m = some (f m) := by
  intro order
  induction order with
  | nil =>
    intro d h
    rcases h with h | h
    · exact absurd h (List.not_mem_nil m)
    · simpa using h
  | cons x xs ih =>
    intro d h
    rw [List.foldl_cons]
    apply ih
    rcases h with h | h
    · rcases List.mem_cons.mp h with rfl | hxs
      · right; rw [dictGet_insert]; simp
      · left; exact hxs
    · by_cases hx : x = m
      · right; rw [dictGet_insert]; simp [hx]
      · right; rw [dictGet_insert, if_neg hx]; exact h

lemma filterMap_eq_map_of_forall {α : Type} (l : List α) (F : α → Option String)
    (g : α → String) (h : ∀ m ∈ l, F m = some (g m)) : l.filterMap F = l.map g := by
  induction l with
  | nil => rfl
  | cons a l ih =>
    simp [List.filterMap_cons, h a (by simp), ih (fun m hm => h m (by simp [hm]))]

lemma dropWhile_eq_self_of_all (p : Char → Bool) (l : List Char)
    (h : l.all (fun c => !p c) = true) : l.dropWhile p = l := by
  cases l with
  | nil => rfl
  | cons a as =>
    rw [List.all_cons, Bool.and_eq_true] at h
    have hpa : p a = false := by simpa using h.1
    simp [List.dropWhile_cons, hpa]

lemma stripPercentList (l : List Char) (h : l.all (fun c => !(c == '%')) = true) :
    (((l ++ ['%']).dropWhile (fun c => c == '%')).reverse.dropWhile
      (fun c => c == '%')).reverse = l := by
  cases l with
  | nil => rfl
  | cons a as =>
    rw [List.all_cons, Bool.and_eq_true] at h
    have hpa : (a == '%') = false := by simpa using h.1
    have h1 : ((a :: as) ++ ['%']).dropWhile (fun c => c == '%') = a :: (as ++ ['%']) := by
      simp [List.dropWhile_cons, hpa]
    rw [h1]
    have h2 : (a :: (as ++ ['%'])).reverse = '%' :: (as.reverse ++ [a]) := by simp
    rw [h2]
    have h3 : ('%' :: (as.reverse ++ [a])).dropWhile (fun c => c == '%') =
        (as.reverse ++ [a]).dropWhile (fun c => c == '%') := by
      simp [List.dropWhile_cons]
    rw [h3]
    have h4 : (as.reverse ++ [a]).dropWhile (fun c => c == '%') = as.reverse ++ [a] := by
      apply dropWhile_eq_self_of_all
      simp only [List.all_append, List.all_reverse, Bool.and_eq_true]
      exact ⟨h.2, by simp [hpa]⟩
    rw [h4]
    simp

lemma processDiskLine_skip (d : List (String × DiskEntry)) (line : String)
    (h : (lineTokens line).length < 6) : processDiskLine d line = some d := by
  unfold processDiskLine
  rw [if_neg (by omega)]

lemma processDiskLine_six (d : List (String × DiskEntry)) (line : String) (ts : List String)
    (hts : lineTokens line = ts) (h6 : 6 ≤ ts.length) :
    processDiskLine d line =
      (pyFloat (pyStripPercent (ts.getD 4 ""))).map
        (fun pct => dictInsert d (ts.getD 5 "") (diskEntryOf ts pct)) := by
  unfold processDiskLine
  rw [hts, if_pos h6]
  cases pyFloat (pyStripPercent (ts.getD 4 "")) <;> rfl

lemma foldlM_processDiskLine_skipAll :
    ∀ (ls : List String) (d : List (String × DiskEntry)),
      (∀ l ∈ ls, (lineTokens l).length < 6) → List.foldlM processDiskLine d ls = some d := by
  intro ls
  induction ls with
  | nil => intro d _; rfl
  | cons x xs ih =>
    intro d h
    have hx : processDiskLine d x = some d := processDiskLine_skip d x (h x (by simp))
    calc List.foldlM processDiskLine d (x :: xs)
        = processDiskLine d x >>= fun d' => List.foldlM processDiskLine d' xs := rfl
      _ = List.foldlM processDiskLine d xs := by rw [hx]; rfl
      _ = some d := ih d (fun l hl => h l (by simp [hl]))

/-! ### Claim theorems -/

/-- Claim C1: one polling cycle of `MultiServerMonitor.monitor_all` produces
exactly one row per configured monitor, in configuration order, for every
completion order of the worker-pool futures that delivers each submitted
monitor (in particular for every permutation of the monitor list), however
many hosts failed (the status function is total, claim C2). -/
theorem monitorAll_snapshot_order {M : Type} [DecidableEq M] (monitors order : List M)
    (getStatus : M → String) (hall : ∀ m ∈ monitors, m ∈ order) :
    monitorAllCycle monitors getStatus order = monitors.map getStatus ∧
    (monitorAllCycle monitors getStatus order).length = monitors.length := by
  have hmain : monitorAllCycle monitors getStatus order = monitors.map getStatus := by
    unfold monitorAllCycle
    apply filterMap_eq_map_of_forall
    intro m hm
    exact dictGet_fold getStatus m order [] (Or.inl (hall m hm))
  exact ⟨hmain, by rw [hmain, List.length_map]⟩

/-- Witness for C1: three monitors whose results complete in the order
`[2, 0, 1]` still render as three rows in the configured order `[0, 1, 2]`. -/
theorem monitorAll_snapshot_order_witness :
    monitorAllCycle [0, 1, 2] (fun n => unknownLine (toString n)) [2, 0, 1] =
      List.map (fun n => unknownLine (toString n)) [0, 1, 2] ∧
    (monitorAllCycle [0, 1, 2] (fun n => unknownLine (toString n)) [2, 0, 1]).length = 3 :=
  monitorAll_snapshot_order [0, 1, 2] [2, 0, 1] (fun n => unknownLine (toString n)) (by decide)

/-- Claim C3: `get_memory_usage` splits its probe output into three integers
`total used free` (KB) and produces `usage_percent = used / total * 100` and
the `_mb` fields divided by 1024 — except that `total = 0` is a failure
(`ZeroDivisionError`), producing no numeric result. -/
theorem getMemoryUsage_parse (s : String) (t u f : Int)
    (h : (pySplitWs s).mapM pyInt = some [t, u, f]) :
    getMemoryUsage s =
      if t = 0 then none
      else some ⟨(t : ℚ) / 1024, (u : ℚ) / 1024, (f : ℚ) / 1024, ((u : ℚ) / (t : ℚ)) * 100⟩ := by
  unfold getMemoryUsage
  rw [h]

/-- Witness for C3: the spec's concrete example `"8000000 4000000 4000000"`
gives `usage_percent = 50` and `used_mb = 3906.25`, and a zero total yields
no result. -/
theorem getMemoryUsage_parse_witness :
    getMemoryUsage "8000000 4000000 4000000" =
      some ⟨((8000000 : Int) : ℚ) / 1024, ((4000000 : Int) : ℚ) / 1024,
            ((4000000 : Int) : ℚ) / 1024,
            (((4000000 : Int) : ℚ) / ((8000000 : Int) : ℚ)) * 100⟩ ∧
    ((4000000 : Int) : ℚ) / 1024 = 3906.25 ∧
    (((4000000 : Int) : ℚ) / ((8000000 : Int) : ℚ)) * 100 = 50 ∧
    getMemoryUsage "0 4000000 4000000" = none := by
  refine ⟨?_, by norm_num, by norm_num, ?_⟩
  · rw [getMemoryUsage_parse "8000000 4000000 4000000" 8000000 4000000 4000000 (by decide)]
    norm_num
  · rw [getMemoryUsage_parse "0 4000000 4000000" 0 4000000 4000000 (by decide)]
    norm_num

/-- Claim C4: disk parsing tokenizes each line on whitespace; a text all of
whose lines have fewer than six tokens parses to the empty dictionary with no
error; a line with at least six tokens is keyed by its sixth token with the
percentage parsed from the `%`-stripped fifth token (and stripping does
remove a trailing `%`); and when two lines share a mount point the later
line's entry is the one kept. -/
theorem getDiskUsage_parse :
    (∀ text : String, (∀ l ∈ pySplitLines text, (lineTokens l).length < 6) →
      getDiskUsage text = some []) ∧
    (∀ (d : List (String × DiskEntry)) (line : String) (ts : List String),
      lineTokens line = ts → 6 ≤ ts.length →
      processDiskLine d line =
        (pyFloat (pyStripPercent (ts.getD 4 ""))).map
          (fun pct => dictInsert d (ts.getD 5 "") (diskEntryOf ts pct))) ∧
    (∀ t : String, t.data.all (fun c => !(c == '%')) = true →
      pyStripPercent (t ++ "%") = t) ∧
    (∀ (text l₁ l₂ : String) (ts₁ ts₂ : List String) (pct₁ pct₂ : ℚ),
      pySplitLines text = [l₁, l₂] → lineTokens l₁ = ts₁ → lineTokens l₂ = ts₂ →
      6 ≤ ts₁.length → 6 ≤ ts₂.length → ts₁.getD 5 "" = ts₂.getD 5 "" →
      pyFloat (pyStripPercent (ts₁.getD 4 "")) = some pct₁ →
      pyFloat (pyStripPercent (ts₂.getD 4 "")) = some pct₂ →
      getDiskUsage text = some [(ts₂.getD 5 "", diskEntryOf ts₂ pct₂)]) := by
  refine ⟨?_, ?_, ?_, ?_⟩
  · intro text h
    unfold getDiskUsage
    exact foldlM_processDiskLine_skipAll (pySplitLines text) [] h
  · intro d line ts hts h6
    exact processDiskLine_six d line ts hts h6
  · intro t h
    obtain ⟨l⟩ := t
    show String.mk ((((l ++ ['%']).dropWhile (fun c => c == '%')).reverse.dropWhile
      (fun c => c == '%')).reverse) = String.mk l
    exact congrArg String.mk (stripPercentList l h)
  · intro text l₁ l₂ ts₁ ts₂ pct₁ pct₂ hsplit ht₁ ht₂ h6₁ h6₂ hmp hp₁ hp₂
    have e₁ : processDiskLine [] l₁ = some [(ts₂.getD 5 "", diskEntryOf ts₁ pct₁)] := by
      rw [processDiskLine_six [] l₁ ts₁ ht₁ h6₁, hp₁, hmp]
      rfl
    have e₂ : processDiskLine [(ts₂.getD 5 "", diskEntryOf ts₁ pct₁)] l₂ =
        some [(ts₂.getD 5 "", diskEntryOf ts₂ pct₂)] := by
      rw [processDiskLine_six _ l₂ ts₂ ht₂ h6₂, hp₂]
      simp [dictInsert]
    unfold getDiskUsage
    rw [hsplit]
    calc List.foldlM processDiskLine [] [l₁, l₂]
        = processDiskLine [] l₁ >>= fun d => List.foldlM processDiskLine d [l₂] := rfl
      _ = List.foldlM processDiskLine [(ts₂.getD 5 "", diskEntryOf ts₁ pct₁)] [l₂] := by
          rw [e₁]; rfl
      _ = processDiskLine [(ts₂.getD 5 "", diskEntryOf ts₁ pct₁)] l₂ >>=
            fun d => List.foldlM processDiskLine d [] := rfl
      _ = some [(ts₂.getD 5 "", diskEntryOf ts₂ pct₂)] := by rw [e₂]; rfl

/-- Witness for C4: the spec's two example lines, a malformed-only text, and
a duplicated mount point, all evaluated concretely. -/
theorem getDiskUsage_parse_witness :
    getDiskUsage "short line" = some [] ∧
    processDiskLine [] "/dev/sda1 100G 50G 50G 50% /" =
      (pyFloat (pyStripPercent "50%")).map
        (fun pct => dictInsert [] "/"
          (diskEntryOf ["/dev/sda1", "100G", "50G", "50G", "50%", "/"] pct)) ∧
    pyStripPercent "50%" = "50" ∧
    getDiskUsage "/dev/sda1 100G 50G 50G 50% /\n/dev/sda9 90G 9G 81G 9% /" =
      some [("/", diskEntryOf ["/dev/sda9", "90G", "9G", "81G", "9%", "/"] ((9 : ℕ) : ℚ))] := by
  refine ⟨?_, ?_, ?_, ?_⟩
  · exact getDiskUsage_parse.1 "short line" (by decide)
  · exact getDiskUsage_parse.2.1 [] "/dev/sda1 100G 50G 50G 50% /"
      ["/dev/sda1", "100G", "50G", "50G", "50%", "/"] (by decide) (by decide)
  · exact getDiskUsage_parse.2.2.1 "50" (by decide)
  · exact getDiskUsage_parse.2.2.2 "/dev/sda1 100G 50G 50G 50% /\n/dev/sda9 90G 9G 81G 9% /"
      "/dev/sda1 100G 50G 50G 50% /" "/dev/sda9 90G 9G 81G 9% /"
      ["/dev/sda1", "100G", "50G", "50G", "50%", "/"]
      ["/dev/sda9", "90G", "9G", "81G", "9%", "/"]
      ((50 : ℕ) : ℚ) ((9 : ℕ) : ℚ)
      (by decide) (by decide) (by decide) (by decide) (by decide) (by decide) rfl rfl

lemma executeCommand_active_some (tr : Transport) (st : SessionState) (cmd : Probe) (o e : String)
    (ha : st.active = true) (hx : tr.exec cmd = some (o, e)) :
    executeCommand tr st cmd =
      ⟨Except.ok (pyStrip o), { st with cmdRuns := st.cmdRuns + 1 },
        if pyStrip e = "" then [] else [stderrWarn (pyStrip e)]⟩ := by
  have h0 : executeCommand tr st cmd = execOnLive tr st cmd [] := by
    unfold executeCommand
    rw [if_pos ha]
  rw [h0]
  unfold execOnLive
  rw [hx]
  simp only [List.nil_append]

/-- Claim C2: on a live session every collection either renders the
happy-path row or returns the unknown row with the failure's message as the
final log record — whatever the transport and parser outcomes.  The collector
`format_status_line` is a total function (its `except` clause converts every
raised failure into the returned row), so no single host's failure can escape
to the orchestrator, the refresh loop, or the process. -/
theorem formatStatusLine_isolates_failures (tr : Transport) (st : SessionState) (name : String)
    (ha : st.active = true) :
    (∃ c u t rd st3 L, formatStatusLine tr st name = (statusLine name c u t rd, st3, L)) ∨
    (∃ st' L e, formatStatusLine tr st name = (unknownLine name, st', L ++ [fmtErrLog name e])) := by
  unfold formatStatusLine
  rw [if_pos ha]
  rcases hE1 : executeCommand tr st Probe.cpu with ⟨res1, st1, log1⟩
  rcases res1 with e | out1
  · exact Or.inr ⟨st1, log1, e, rfl⟩
  · dsimp only
    rcases hc : getCpuUsage out1 with _ | cpu
    · exact Or.inr ⟨st1, log1, floatParseErr out1, rfl⟩
    · dsimp only
      rcases hE2 : executeCommand tr st1 Probe.mem with ⟨res2, st2, log2⟩
      rcases res2 with e | out2
      · exact Or.inr ⟨st2, log1 ++ log2, e, rfl⟩
      · dsimp only
        rcases hm : getMemoryUsage out2 with _ | mem
        · exact Or.inr ⟨st2, log1 ++ log2, memParseErr out2, rfl⟩
        · dsimp only
          rcases hE3 : executeCommand tr st2 Probe.disk with ⟨res3, st3, log3⟩
          rcases res3 with e | out3
          · exact Or.inr ⟨st3, (log1 ++ log2) ++ log3, e, rfl⟩
          · dsimp only
            rcases hd : getDiskUsage out3 with _ | disk
            · exact Or.inr ⟨st3, (log1 ++ log2) ++ log3, diskParseErr out3, rfl⟩
            · dsimp only
              rcases hr : rootDiskSelect disk with e | rd
              · exact Or.inr ⟨st3, (log1 ++ log2) ++ log3, e, rfl⟩
              · exact Or.inl ⟨cpu, mem.used_mb / 1024, mem.total_mb / 1024, rd, st3,
                  (log1 ++ log2) ++ log3, rfl⟩

/-- Witness for C2: a transport that fails every command still yields the
unknown row with a logged failure, not an exception. -/
theorem formatStatusLine_isolates_failures_witness :
    (∃ c u t rd st3 L, formatStatusLine ⟨true, fun _ => none⟩ ⟨true, 0, 0⟩ "web" =
      (statusLine "web" c u t rd, st3, L)) ∨
    (∃ st' L e, formatStatusLine ⟨true, fun _ => none⟩ ⟨true, 0, 0⟩ "web" =
      (unknownLine "web", st', L ++ [fmtErrLog "web" e])) :=
  formatStatusLine_isolates_failures ⟨true, fun _ => none⟩ ⟨true, 0, 0⟩ "web" rfl

/-- Claim C5: root-disk selection takes the entry keyed `/` when present,
else the first entry in insertion order; an empty disk dictionary raises
`IndexError` inside the collector, whose handler renders the unknown-marker
row — no exception reaches the collector's caller. -/
theorem rootDisk_selection_spec :
    (∀ (d : List (String × DiskEntry)) (v : DiskEntry), dictGet d "/" = some v →
      rootDiskSelect d = Except.ok v) ∧
    (∀ (k : String) (v : DiskEntry) (tl : List (String × DiskEntry)),
      dictGet ((k, v) :: tl) "/" = none → rootDiskSelect ((k, v) :: tl) = Except.ok v) ∧
    rootDiskSelect [] = Except.error "list index out of range" ∧
    (∀ (tr : Transport) (st : SessionState) (name o1 e1 o2 e2 o3 e3 : String) (c : ℚ)
      (mi : MemInfo),
      st.active = true →
      tr.exec Probe.cpu = some (o1, e1) → getCpuUsage (pyStrip o1) = some c →
      tr.exec Probe.mem = some (o2, e2) → getMemoryUsage (pyStrip o2) = some mi →
      tr.exec Probe.disk = some (o3, e3) → getDiskUsage (pyStrip o3) = some [] →
      (formatStatusLine tr st name).1 = unknownLine name) := by
  refine ⟨?_, ?_, rfl, ?_⟩
  · intro d v h
    rcases d with _ | ⟨⟨k₀, v₀⟩, tl⟩
    · simp [dictGet] at h
    · simp only [rootDiskSelect]
      rw [h]
  · intro k v tl h
    simp only [rootDiskSelect]
    rw [h]
    simp [dictGet]
  · intro tr st name o1 e1 o2 e2 o3 e3 c mi ha h1 hc h2 hm h3 hd
    unfold formatStatusLine
    rw [if_pos ha]
    rw [executeCommand_active_some tr st Probe.cpu o1 e1 ha h1]
    simp only [hc]
    rw [executeCommand_active_some tr
      { active := st.active, connectAttempts := st.connectAttempts, cmdRuns := st.cmdRuns + 1 }
      Probe.mem o2 e2 ha h2]
    simp only [hm]
    rw [executeCommand_active_some tr
      { active := st.active, connectAttempts := st.connectAttempts, cmdRuns := st.cmdRuns + 1 + 1 }
      Probe.disk o3 e3 ha h3]
    simp only [hd]
    rfl

/-- Witness for C5: a dictionary with `/` selects the `/` entry, one without
`/` selects its first entry, and a transport whose disk probe returns no
lines makes the collector render the unknown row. -/
theorem rootDisk_selection_spec_witness :
    rootDiskSelect [("/", diskEntryOf ["/dev/sda1", "100G", "50G", "50G", "50%", "/"] 50),
                    ("/data", diskEntryOf ["/dev/sda2", "20G", "2G", "18G", "10%", "/data"] 10)] =
      Except.ok (diskEntryOf ["/dev/sda1", "100G", "50G", "50G", "50%", "/"] 50) ∧
    rootDiskSelect [("/data", diskEntryOf ["/dev/sda2", "20G", "2G", "18G", "10%", "/data"] 10)] =
      Except.ok (diskEntryOf ["/dev/sda2", "20G", "2G", "18G", "10%", "/data"] 10) ∧
    (formatStatusLine
      ⟨true, fun p => match p with
        | Probe.cpu => some ("42", "")
        | Probe.mem => some ("8000000 4000000 4000000", "")
        | Probe.disk => some ("", "")⟩
      ⟨true, 0, 0⟩ "db").1 = unknownLine "db" := by
  refine ⟨rootDisk_selection_spec.1 _ _ rfl, rootDisk_selection_spec.2.1 _ _ _ rfl, ?_⟩
  exact rootDisk_selection_spec.2.2.2 _ ⟨true, 0, 0⟩ "db" "42" "" "8000000 4000000 4000000" ""
    "" "" ((42 : ℕ) : ℚ)
    ⟨((8000000 : Int) : ℚ) / 1024, ((4000000 : Int) : ℚ) / 1024, ((4000000 : Int) : ℚ) / 1024,
      (((4000000 : Int) : ℚ) / ((8000000 : Int) : ℚ)) * 100⟩
    rfl rfl rfl rfl rfl rfl rfl

/-- Counterexample for C6: a collection task on an inactive session makes
zero reconnect attempts and dispatches zero probe commands — not the one
reconnect attempt the claim asserts — even with a transport that would accept
the connection; `format_status_line` line 146 returns the unknown row before
any probe runs. -/
theorem collector_inactive_skips_reconnect_cx :
    formatStatusLine ⟨true, fun _ => some ("42", "")⟩ ⟨false, 0, 0⟩ "web" =
      (unknownLine "web", ⟨false, 0, 0⟩, []) ∧
    (formatStatusLine ⟨true, fun _ => some ("42", "")⟩ ⟨false, 0, 0⟩ "web").2.1.connectAttempts
      = 0 ∧
    (formatStatusLine ⟨true, fun _ => some ("42", "")⟩ ⟨false, 0, 0⟩ "web").2.1.cmdRuns = 0 ∧
    ¬ (formatStatusLine ⟨true, fun _ => some ("42", "")⟩ ⟨false, 0, 0⟩ "web").2.1.connectAttempts
      = 1 :=
  ⟨rfl, rfl, rfl, by decide⟩

/-- Claim C6 (amended): a collection task finding its session inactive
returns the unknown row immediately — zero reconnect attempts, zero probe
commands, session state untouched — so an unreachable host is not retried by
the polling cycle; reconnect-on-demand lives one layer down in
`execute_command`, which on an inactive session makes exactly one connect
attempt before dispatching the command (and dispatches nothing when that
attempt fails), and makes zero connect attempts on an active session. -/
theorem reconnect_on_demand_amended (tr : Transport) (st : SessionState) (cmd : Probe)
    (name : String) :
    (st.active = false → formatStatusLine tr st name = (unknownLine name, st, [])) ∧
    (st.active = false →
      (executeCommand tr st cmd).state.connectAttempts = st.connectAttempts + 1 ∧
      (tr.connectOk = false → (executeCommand tr st cmd).state.cmdRuns = st.cmdRuns)) ∧
    (st.active = true → (executeCommand tr st cmd).state.connectAttempts = st.connectAttempts) := by
  refine ⟨?_, ?_, ?_⟩
  · intro h
    unfold formatStatusLine
    rw [if_neg (by simp [h])]
  · intro h
    cases htr : tr.connectOk
    · constructor
      · simp [executeCommand, connectSession, execOnLive, h, htr]
      · intro _
        simp [executeCommand, connectSession, execOnLive, h, htr]
    · constructor
      · rcases hx : tr.exec cmd with _ | ⟨o, e⟩ <;>
          simp [executeCommand, connectSession, execOnLive, h, htr, hx]
      · intro hfalse
        exact absurd hfalse (by decide)
  · intro h
    rcases hx : tr.exec cmd with _ | ⟨o, e⟩ <;>
      simp [executeCommand, execOnLive, h, hx]

/-- Witness for C6 (amended): concrete inactive and active sessions with a
refusing transport, showing one attempt at the command layer, none at the
collector layer, and none on a live session. -/
theorem reconnect_on_demand_amended_witness :
    (executeCommand ⟨false, fun _ => none⟩ ⟨false, 2, 5⟩ Probe.cpu).state.connectAttempts
      = 2 + 1 ∧
    (executeCommand ⟨false, fun _ => none⟩ ⟨false, 2, 5⟩ Probe.cpu).state.cmdRuns = 5 ∧
    formatStatusLine ⟨false, fun _ => none⟩ ⟨false, 2, 5⟩ "app" =
      (unknownLine "app", ⟨false, 2, 5⟩, []) ∧
    (executeCommand ⟨false, fun _ => none⟩ ⟨true, 7, 0⟩ Probe.cpu).state.connectAttempts = 7 := by
  have h := reconnect_on_demand_amended ⟨false, fun _ => none⟩ ⟨false, 2, 5⟩ Probe.cpu "app"
  have h' := reconnect_on_demand_amended ⟨false, fun _ => none⟩ ⟨true, 7, 0⟩ Probe.cpu "app"
  exact ⟨(h.2.1 rfl).1, (h.2.1 rfl).2 rfl, h.1 rfl, h'.2.2 rfl⟩

/-- Counterexample for C7: two runs whose transports differ only in the
captured standard-error produce identical return values — the return value
is the trimmed stdout alone, a single text value that cannot contain the
(differing, non-empty after trimming) stderr text; `execute_command` returns
only `output` (line 95). -/
theorem executeCommand_single_return_cx :
    (executeCommand ⟨true, fun _ => some ("out", "errA")⟩ ⟨true, 0, 0⟩ Probe.cpu).result =
      (executeCommand ⟨true, fun _ => some ("out", "errB")⟩ ⟨true, 0, 0⟩ Probe.cpu).result ∧
    (executeCommand ⟨true, fun _ => some ("out", "errA")⟩ ⟨true, 0, 0⟩ Probe.cpu).result =
      Except.ok "out" ∧
    pyStrip "errA" ≠ pyStrip "errB" :=
  ⟨rfl, rfl, by decide⟩

/-- Claim C7 (amended): `execute_command` — serialised by the session's
execution lock, realised here as sequential state passing — ensures a live
connection (reconnecting an inactive session when the transport accepts) and
returns the captured standard-output alone as trimmed text; the captured
standard-error is trimmed and, when non-empty, emitted to the log, never
returned. -/
theorem executeCommand_returns_stdout_amended (tr : Transport) (st st₂ : SessionState)
    (cmd : Probe) (o e : String)
    (ha : st.active = true) (hx : tr.exec cmd = some (o, e))
    (hb : st₂.active = false) (hcok : tr.connectOk = true) :
    (executeCommand tr st cmd).result = Except.ok (pyStrip o) ∧
    (executeCommand tr st cmd).log =
      (if pyStrip e = "" then [] else [stderrWarn (pyStrip e)]) ∧
    (executeCommand tr st cmd).state = { st with cmdRuns := st.cmdRuns + 1 } ∧
    (executeCommand tr st₂ cmd).result = Except.ok (pyStrip o) := by
  rw [executeCommand_active_some tr st cmd o e ha hx]
  refine ⟨rfl, rfl, rfl, ?_⟩
  unfold executeCommand
  rw [if_neg (by simp [hb])]
  unfold connectSession
  rw [if_neg (by simp [hb]), if_pos hcok]
  unfold execOnLive
  rw [hx]

/-- Witness for C7 (amended): a concrete live session and a concrete
reconnectable session both return the trimmed stdout. -/
theorem executeCommand_returns_stdout_amended_witness :
    (executeCommand ⟨true, fun _ => some (" out ", " err ")⟩ ⟨true, 0, 0⟩ Probe.cpu).result =
      Except.ok (pyStrip " out ") ∧
    (executeCommand ⟨true, fun _ => some (" out ", " err ")⟩ ⟨true, 0, 0⟩ Probe.cpu).log =
      (if pyStrip " err " = "" then [] else [stderrWarn (pyStrip " err ")]) ∧
    (executeCommand ⟨true, fun _ => some (" out ", " err ")⟩ ⟨true, 0, 0⟩ Probe.cpu).state =
      { active := true, connectAttempts := 0, cmdRuns := 0 + 1 } ∧
    (executeCommand ⟨true, fun _ => some (" out ", " err ")⟩ ⟨false, 0, 0⟩ Probe.cpu).result =
      Except.ok (pyStrip " out ") :=
  executeCommand_returns_stdout_amended ⟨true, fun _ => some (" out ", " err ")⟩
    ⟨true, 0, 0⟩ ⟨false, 0, 0⟩ Probe.cpu " out " " err " rfl rfl rfl rfl

/-- Claim C10: a transport-successful command with non-empty standard-error
still returns a normal (non-error) result — the trimmed stdout — while the
trimmed stderr appears only in the log (lines 92-95). -/
theorem stderr_nonfatal (tr : Transport) (st : SessionState) (cmd : Probe) (o e : String)
    (ha : st.active = true) (hx : tr.exec cmd = some (o, e)) (hne : pyStrip e ≠ "") :
    (executeCommand tr st cmd).result = Except.ok (pyStrip o) ∧
    (executeCommand tr st cmd).log = [stderrWarn (pyStrip e)] := by
  rw [executeCommand_active_some tr st cmd o e ha hx]
  exact ⟨rfl, by rw [if_neg hne]⟩

/-- Witness for C10: a probe writing to both channels yields a normal
result carrying only stdout; the stderr goes to the log. -/
theorem stderr_nonfatal_witness :
    (executeCommand ⟨true, fun _ => some ("3", " warn ")⟩ ⟨true, 0, 0⟩ Probe.cpu).result =
      Except.ok (pyStrip "3") ∧
    (executeCommand ⟨true, fun _ => some ("3", " warn ")⟩ ⟨true, 0, 0⟩ Probe.cpu).log =
      [stderrWarn (pyStrip " warn ")] :=
  stderr_nonfatal ⟨true, fun _ => some ("3", " warn ")⟩ ⟨true, 0, 0⟩ Probe.cpu "3" " warn "
    rfl rfl (by decide)

/-- Counterexample for C8: a user interrupt during the monitoring loop runs
`disconnect_all` twice — once from `monitor_all`'s `finally` and once from
`main`'s `finally` — so every session's `disconnect()` is invoked twice on
that termination path, not exactly once. -/
theorem shutdown_double_disconnect_cx :
    sessionCloseCalls TermCause.interruptInMonitorLoop = 2 ∧
    ¬ sessionCloseCalls TermCause.interruptInMonitorLoop = 1 := by
  exact ⟨by decide, by decide⟩

/-- Claim C8 (amended): on every termination path every session is
disconnected at least once before the process exits, but not exactly once on
each path: an interrupt during startup connection disconnects each session
once, while an interrupt or unexpected error during the monitoring loop
disconnects each session twice (both `finally` blocks run). -/
theorem shutdown_disconnect_total :
    ∀ c : TermCause,
      sessionCloseCalls c = (if c = TermCause.interruptInConnectAll then 1 else 2) ∧
      1 ≤ sessionCloseCalls c := by
  intro c
  cases c <;> exact ⟨by decide, by decide⟩

lemma poolReach_inv {W : Nat} {s s' : PoolState} (h : PoolReach W s s')
    (h0 : s.inCmd ≤ s.running ∧ s.running ≤ W) :
    s'.inCmd ≤ s'.running ∧ s'.running ≤ W := by
  induction h with
  | refl => exact h0
  | tail hre hstep ih =>
    cases hstep with
    | start h1 h2 => exact ⟨le_trans ih.1 (Nat.le_succ _), h1⟩
    | beginCmd h1 => exact ⟨h1, ih.2⟩
    | endCmd h1 => exact ⟨le_trans (Nat.sub_le _ _) ih.1, ih.2⟩
    | finish h1 => exact ⟨Nat.le_pred_of_lt h1, le_trans (Nat.sub_le _ _) ih.2⟩

/-- Claim C9: the repository constructs one worker pool of the constant
width 10 whatever the host count (line 172), and — taking the external
executor's documented bounded-pool contract as the model — no reachable pool
state has more than `W` tasks inside a remote command invocation at once. -/
theorem pool_concurrency_bound (numServers W k : Nat) (s : PoolState)
    (h : PoolReach W (poolInit k) s) :
    executorMaxWorkers numServers = 10 ∧ s.inCmd ≤ W := by
  have hinv := poolReach_inv h ⟨Nat.le_refl 0, Nat.zero_le W⟩
  exact ⟨rfl, le_trans hinv.1 hinv.2⟩

/-- Witness for C9: with width 2 and three queued tasks, the state reached by
starting two tasks and entering one command satisfies the bound. -/
theorem pool_concurrency_bound_witness :
    executorMaxWorkers 3 = 10 ∧ (PoolState.mk 2 1 1 0).inCmd ≤ 2 := by
  have h1 : PoolStep 2 (poolInit 3) ⟨2, 1, 0, 0⟩ :=
    PoolStep.start (poolInit 3) (by decide) (by decide)
  have h2 : PoolStep 2 ⟨2, 1, 0, 0⟩ ⟨2, 1, 1, 0⟩ := PoolStep.beginCmd ⟨2, 1, 0, 0⟩ (by decide)
  exact pool_concurrency_bound 3 2 3 ⟨2, 1, 1, 0⟩
    (PoolReach.tail (PoolReach.tail (PoolReach.refl (poolInit 3)) h1) h2)
